import Mathlib

/-!
Verification of the asynchronous inference job lifecycle and readiness-polling
protocol of the product-listing assistant repository.

The development shallowly embeds the client-side polling loop
(`frontend/src/entities/services/checkStatus.ts` and its `poll` twin), the
shared service-state hook (`useService.ts`), the Mistral retry-with-warmup
coordinator (`performRetryWithWarmup`), and the health-check HTTP clients, and
proves or refutes the specified properties about them.
-/

namespace CheckStatus

/-- The shape of the value returned by one `checkStatusFn()` call:
`statusResult?.status` and `statusResult?.details?.status`, each possibly
absent (optional chaining in the source). -/
structure StatusResult where
  status : Option String
  detailsStatus : Option String
deriving DecidableEq, Repr

/-- One invocation of `checkStatusFn` either returns a result or throws a
transport-level exception (`.exn`, landing in the `catch` block). -/
inductive PollOutcome where
  | ok (r : StatusResult)
  | exn
deriving DecidableEq, Repr

/-- Settlement of the promise returned by `checkStatus`. -/
inductive SessionOutcome where
  | resolved (v : Bool)
  | rejected (msg : String)
deriving DecidableEq, Repr

/-- Observable state of one poll session: the `retries` counter, whether the
promise has settled (and how), whether a further `retry()` call is scheduled
(via `setTimeout` or the initial call), and how many `checkStatusFn` calls
have been issued so far. -/
structure SessionState where
  retries : Nat
  outcome : Option SessionOutcome
  scheduled : Bool
  checksIssued : Nat
deriving DecidableEq, Repr

/-- The resolution condition of the source:
`statusResult?.status === "COMPLETED" && statusResult?.details?.status === "IDLE"`. -/
def isSuccess (r : StatusResult) : Bool :=
  r.status = some "COMPLETED" && r.detailsStatus = some "IDLE"

/-- One execution of the scheduled `retry()` closure.  `fn i` is the outcome
of the `(i+1)`-th `checkStatusFn()` call.  Mirrors the source exactly:
- a settled or unscheduled session does nothing;
- `retries >= maxRetries` rejects with `Error("Service not available")`;
- a thrown exception is swallowed and, the retry in the `catch` block being
  commented out in the source, nothing further is scheduled;
- `COMPLETED` with `details.status === "IDLE"` resolves with `true`;
- any other result schedules the next `retry()` and increments `retries`. -/
def step (fn : Nat → PollOutcome) (maxRetries : Nat) (s : SessionState) : SessionState :=
  if s.outcome.isSome || !s.scheduled then s
  else if maxRetries ≤ s.retries then
    { s with outcome := some (.rejected "Service not available"), scheduled := false }
  else
    match fn s.checksIssued with
    | .exn => { s with scheduled := false, checksIssued := s.checksIssued + 1 }
    | .ok r =>
      if isSuccess r then
        { s with outcome := some (.resolved true), scheduled := false,
                 checksIssued := s.checksIssued + 1 }
      else
        { s with retries := s.retries + 1, checksIssued := s.checksIssued + 1 }

/-- Session state right after `checkStatus` ran `retry()`'s first scheduling:
no retries counted, promise pending, the initial `retry()` call pending. -/
def initialState : SessionState :=
  { retries := 0, outcome := none, scheduled := true, checksIssued := 0 }

/-- The session after `n` scheduled `retry()` executions.  The `interval`
option only fixes the real-time distance between executions and does not
affect which states are reached, so it is not part of the model. -/
def checkStatus (fn : Nat → PollOutcome) (maxRetries : Nat) (n : Nat) : SessionState :=
  (step fn maxRetries)^[n] initialState

/-- Default `maxRetries` of `checkStatus` (`options?.maxRetries || 20`). -/
def defaultMaxRetries : Nat := 20

/-- Default `interval` of `checkStatus` (`options?.interval || 2000`). -/
def defaultInterval : Nat := 2000

/-- `fn` reports, at every poll, a result that is neither a success nor an
exception: the target never reaches the terminal condition. -/
def NeverTerminal (fn : Nat → PollOutcome) : Prop :=
  ∀ i, ∃ r, fn i = .ok r ∧ isSuccess r = false

lemma step_of_unscheduled (fn : Nat → PollOutcome) (mr : Nat) (s : SessionState)
    (h : s.scheduled = false) : step fn mr s = s := by
  simp [step, h]

lemma checkStatus_succ (fn : Nat → PollOutcome) (mr n : Nat) :
    checkStatus fn mr (n + 1) = step fn mr (checkStatus fn mr n) := by
  simp [checkStatus, Function.iterate_succ_apply']

lemma checkStatus_nonterminal_run (fn : Nat → PollOutcome) (mr : Nat)
    (h : NeverTerminal fn) :
    ∀ n, n ≤ mr →
      checkStatus fn mr n =
        { retries := n, outcome := none, scheduled := true, checksIssued := n } := by
  intro n
  induction n with
  | zero => intro _; rfl
  | succ k ih =>
    intro hk
    have hk' : k ≤ mr := Nat.le_of_succ_le hk
    rw [checkStatus_succ, ih hk']
    obtain ⟨r, hr, hrs⟩ := h k
    have hlt : ¬ mr ≤ k := Nat.not_le.mpr (Nat.lt_of_succ_le hk)
    simp [step, hlt, hr, hrs]

lemma checkStatus_nonterminal_reject (fn : Nat → PollOutcome) (mr : Nat)
    (h : NeverTerminal fn) :
    checkStatus fn mr (mr + 1) =
      { retries := mr, outcome := some (.rejected "Service not available"),
        scheduled := false, checksIssued := mr } := by
  rw [checkStatus_succ, checkStatus_nonterminal_run fn mr h mr le_rfl]
  simp [step]

lemma checkStatus_nonterminal_after (fn : Nat → PollOutcome) (mr : Nat)
    (h : NeverTerminal fn) (k : Nat) :
    checkStatus fn mr (mr + 1 + k) = checkStatus fn mr (mr + 1) := by
  have hfix : step fn mr (checkStatus fn mr (mr + 1)) = checkStatus fn mr (mr + 1) := by
    rw [checkStatus_nonterminal_reject fn mr h]
    exact step_of_unscheduled fn mr _ rfl
  show (step fn mr)^[mr + 1 + k] initialState = _
  rw [Nat.add_comm (mr + 1) k, Function.iterate_add_apply]
  exact Function.iterate_fixed hfix k

end CheckStatus

namespace CheckStatus

lemma isSuccess_iff (r : StatusResult) :
    isSuccess r = true ↔ (r.status = some "COMPLETED" ∧ r.detailsStatus = some "IDLE") := by
  simp [isSuccess]

/-- C1: in the source, the `catch` block only logs the exception; the
re-scheduling code is commented out.  A session whose status check throws is
therefore left permanently pending: after the first (throwing) check, no
further check is ever issued and the promise never resolves nor rejects —
the exception does not count against the `maxAttempts` budget and the
session hangs silently, contradicting the claim. -/
theorem checkStatus_exception_hangs (n : Nat) :
    checkStatus (fun _ => PollOutcome.exn) defaultMaxRetries (n + 1) =
      { retries := 0, outcome := none, scheduled := false, checksIssued := 1 } := by
  have h1 : step (fun _ => PollOutcome.exn) defaultMaxRetries initialState =
      { retries := 0, outcome := none, scheduled := false, checksIssued := 1 } := by
    decide
  show (step _ _)^[n + 1] initialState = _
  rw [Function.iterate_succ_apply, h1]
  exact Function.iterate_fixed (step_of_unscheduled _ _ _ rfl) n

/-- C2: guaranteed termination fails.  A session whose first status check
throws — even against a target that is ready from the second check on —
never resolves and never rejects: the exception path stops the loop without
settling the promise, so the session does not terminate exactly once. -/
theorem checkStatus_no_termination_after_exception (n : Nat) :
    checkStatus
      (fun i => if i = 0 then PollOutcome.exn
                else PollOutcome.ok ⟨some "COMPLETED", some "IDLE"⟩)
      defaultMaxRetries (n + 1) =
      { retries := 0, outcome := none, scheduled := false, checksIssued := 1 } := by
  have h1 : step
      (fun i => if i = 0 then PollOutcome.exn
                else PollOutcome.ok ⟨some "COMPLETED", some "IDLE"⟩)
      defaultMaxRetries initialState =
      { retries := 0, outcome := none, scheduled := false, checksIssued := 1 } := by
    decide
  show (step _ _)^[n + 1] initialState = _
  rw [Function.iterate_succ_apply, h1]
  exact Function.iterate_fixed (step_of_unscheduled _ _ _ rfl) n

/-- C3 counterexample: a status check that reports `FAILED` does not make the
session reject; after the first `FAILED` result the promise is still pending
and a further poll is scheduled, contradicting "rejects immediately with the
carried error and issues no further polls". -/
theorem checkStatus_failed_not_rejected :
    (checkStatus (fun _ => .ok ⟨some "FAILED", none⟩) defaultMaxRetries 1).outcome = none ∧
    (checkStatus (fun _ => .ok ⟨some "FAILED", none⟩) defaultMaxRetries 1).scheduled = true ∧
    (checkStatus (fun _ => .ok ⟨some "FAILED", none⟩) defaultMaxRetries 1).checksIssued = 1 := by
  decide

/-- C3 amended: a `FAILED` result is treated like any non-terminal result:
the session keeps polling, and when every check reports `FAILED` it rejects
only once the `maxRetries` budget is exhausted, with the generic
`Service not available` error rather than the carried error. -/
theorem checkStatus_failed_retries_until_budget (fn : Nat → PollOutcome) (mr : Nat)
    (h : ∀ i, ∃ e, fn i = .ok ⟨some "FAILED", e⟩) :
    (∀ n, n ≤ mr → (checkStatus fn mr n).outcome = none) ∧
    checkStatus fn mr (mr + 1) =
      { retries := mr, outcome := some (.rejected "Service not available"),
        scheduled := false, checksIssued := mr } := by
  have h' : NeverTerminal fn := by
    intro i
    obtain ⟨e, he⟩ := h i
    exact ⟨_, he, by simp [isSuccess]⟩
  exact ⟨fun n hn => by rw [checkStatus_nonterminal_run fn mr h' n hn],
         checkStatus_nonterminal_reject fn mr h'⟩

theorem checkStatus_failed_retries_until_budget_witness :
    (checkStatus (fun _ => .ok ⟨some "FAILED", none⟩) 2 3).outcome =
      some (.rejected "Service not available") := by
  have := (checkStatus_failed_retries_until_budget (fun _ => .ok ⟨some "FAILED", none⟩) 2
    (fun _ => ⟨none, rfl⟩)).2
  rw [this]

/-- C4: with the default configuration (`interval` 2000 ms, `maxRetries` 20),
a session whose target never reports the terminal condition stays pending
through the 20th status check, rejects with `Error("Service not available")`
on the next scheduled tick — exactly 20 checks having been issued — and
issues no further checks afterwards. -/
theorem checkStatus_timeout_at_budget (fn : Nat → PollOutcome)
    (h : NeverTerminal fn) :
    (∀ n, n ≤ 20 → (checkStatus fn defaultMaxRetries n).outcome = none) ∧
    (checkStatus fn defaultMaxRetries 20).checksIssued = 20 ∧
    checkStatus fn defaultMaxRetries 21 =
      { retries := 20, outcome := some (.rejected "Service not available"),
        scheduled := false, checksIssued := 20 } ∧
    (∀ k, checkStatus fn defaultMaxRetries (21 + k) = checkStatus fn defaultMaxRetries 21) := by
  refine ⟨?_, ?_, ?_, ?_⟩
  · intro n hn
    rw [checkStatus_nonterminal_run fn defaultMaxRetries h n hn]
  · rw [checkStatus_nonterminal_run fn defaultMaxRetries h 20 le_rfl]
  · exact checkStatus_nonterminal_reject fn defaultMaxRetries h
  · intro k
    exact checkStatus_nonterminal_after fn defaultMaxRetries h k

theorem checkStatus_timeout_at_budget_witness :
    (checkStatus (fun _ => .ok ⟨some "IN_PROGRESS", none⟩) defaultMaxRetries 21).outcome =
      some (.rejected "Service not available") := by
  have := (checkStatus_timeout_at_budget (fun _ => .ok ⟨some "IN_PROGRESS", none⟩)
    (fun _ => ⟨⟨some "IN_PROGRESS", none⟩, rfl, by decide⟩)).2.2.1
  rw [this]

/-- C7 counterexample: a result whose `status` is `COMPLETED` but whose
`details.status` is absent does not resolve the session; the session
schedules another poll instead, so `COMPLETED` alone is not sufficient. -/
theorem checkStatus_completed_alone_not_resolved :
    (checkStatus (fun _ => .ok ⟨some "COMPLETED", none⟩) defaultMaxRetries 1).outcome = none ∧
    (checkStatus (fun _ => .ok ⟨some "COMPLETED", none⟩) defaultMaxRetries 1).scheduled = true := by
  decide

/-- C7 amended: the first status check resolves the session — with the
constant `true`, not the result payload — exactly when the result has
`status = "COMPLETED"` and `details.status = "IDLE"`; any other result
(`COMPLETED` alone included) leaves the session polling. -/
theorem checkStatus_first_poll_resolve_iff (fn : Nat → PollOutcome) (mr : Nat)
    (r : StatusResult) (hmr : 1 ≤ mr) (h0 : fn 0 = .ok r) :
    (checkStatus fn mr 1).outcome = some (.resolved true) ↔
      (r.status = some "COMPLETED" ∧ r.detailsStatus = some "IDLE") := by
  have h1 : checkStatus fn mr 1 = step fn mr initialState := by
    simp [checkStatus]
  have hlt : ¬ mr ≤ 0 := by omega
  rw [h1, ← isSuccess_iff]
  by_cases hs : isSuccess r
  · simp [step, initialState, hlt, h0, hs]
  · simp [step, initialState, hlt, h0, hs]

theorem checkStatus_first_poll_resolve_iff_witness :
    (checkStatus (fun _ => .ok ⟨some "COMPLETED", some "IDLE"⟩) defaultMaxRetries 1).outcome =
      some (.resolved true) :=
  (checkStatus_first_poll_resolve_iff (fun _ => .ok ⟨some "COMPLETED", some "IDLE"⟩)
    defaultMaxRetries ⟨some "COMPLETED", some "IDLE"⟩ (by decide) rfl).mpr ⟨rfl, rfl⟩

end CheckStatus

namespace UseService

/-- The per-service entry of the shared `state` record in `useService.ts`. -/
structure ServiceState where
  isLoadingWarmup : Bool
  isLoadingInference : Bool
  error : String
  isReady : Bool
deriving DecidableEq, Repr

/-- A `ServiceResponse`-shaped object as far as the hook constructs one. -/
structure ServiceResponse where
  status : String
  message : String
deriving DecidableEq, Repr

/-- Synchronous effect of one `warmup(params)` or `run(params)` call:
the immediately returned already-resolved response (if any), whether the
underlying mutation (`triggerWarmup` / `inferenceMutateAsync`) was invoked,
and the shared state after the synchronous part of the call. -/
structure CallEffect where
  immediate : Option ServiceResponse
  invoked : Bool
  state : ServiceState
deriving DecidableEq, Repr

/-- The `warmup` member of the second `useService` version: if the service is
already ready it returns a resolved `COMPLETED` response without touching the
mutation; otherwise — including while a warmup is already loading — it calls
`triggerWarmup(params)`. -/
def warmup (st : ServiceState) : CallEffect :=
  if st.isReady then
    { immediate := some { status := "COMPLETED", message := "Service is already ready" },
      invoked := false, state := st }
  else
    { immediate := none, invoked := true, state := st }

/-- The `warmup` member of the first `useService` version: it calls
`triggerWarmup(params)` unconditionally, with no guard at all. -/
def warmupV1 (st : ServiceState) : CallEffect :=
  { immediate := none, invoked := true, state := st }

/-- The `run` member: if the consulted state entry is not ready or an
inference is already loading, it returns an already-resolved
`IN_PROGRESS` response without calling `inferenceMutateAsync` and without
touching the state; otherwise it defers to `inferenceMutateAsync(params)`.
(The first version consults the `generate-description` entry for the
`generate-description/audio-promo` alias; both versions apply this guard to
the consulted entry.) -/
def run (st : ServiceState) : CallEffect :=
  if !st.isReady || st.isLoadingInference then
    { immediate := some { status := "IN_PROGRESS",
                          message := "Service is not ready or is already running" },
      invoked := false, state := st }
  else
    { immediate := none, invoked := true, state := st }

/-- C6 counterexample: with the model loading (`isLoadingWarmup = true`,
`isReady = false`), a `warmup` call is not a no-op: it invokes
`triggerWarmup` again, starting a second load — and the first version's
`warmup` does so even when the service is already ready. -/
theorem warmup_while_loading_triggers_again :
    (warmup { isLoadingWarmup := true, isLoadingInference := false,
              error := "", isReady := false }).invoked = true ∧
    (warmupV1 { isLoadingWarmup := false, isLoadingInference := false,
                error := "", isReady := true }).invoked = true := by
  decide

/-- C6 amended: in the guarded (second) version, `warmup` is a no-op only in
the ready phase: when `isReady` is true it returns the resolved
`COMPLETED`/`Service is already ready` response, does not invoke the warmup
mutation and leaves the shared state unchanged (so a second call behaves
identically); when `isReady` is false — the loading phase included — it
invokes the warmup mutation again. -/
theorem warmup_noop_only_when_ready (st : ServiceState) :
    (st.isReady = true →
      warmup st =
        { immediate := some { status := "COMPLETED", message := "Service is already ready" },
          invoked := false, state := st }) ∧
    (st.isReady = false → (warmup st).invoked = true) := by
  constructor
  · intro h
    simp [warmup, h]
  · intro h
    simp [warmup, h]

theorem warmup_noop_only_when_ready_witness :
    warmup { isLoadingWarmup := false, isLoadingInference := false,
             error := "", isReady := true } =
      { immediate := some { status := "COMPLETED", message := "Service is already ready" },
        invoked := false,
        state := { isLoadingWarmup := false, isLoadingInference := false,
                   error := "", isReady := true } } ∧
    (warmup { isLoadingWarmup := true, isLoadingInference := false,
              error := "", isReady := false }).invoked = true :=
  ⟨(warmup_noop_only_when_ready _).1 rfl, (warmup_noop_only_when_ready _).2 rfl⟩

/-- C10: whenever the consulted service state is not ready or an inference
is already in flight, `run` returns an already-resolved object with status
`IN_PROGRESS` and message `Service is not ready or is already running`,
never invokes the inference mutation, and leaves the shared state
unchanged. -/
theorem run_guard_returns_in_progress (st : ServiceState)
    (h : st.isReady = false ∨ st.isLoadingInference = true) :
    run st =
      { immediate := some { status := "IN_PROGRESS",
                            message := "Service is not ready or is already running" },
        invoked := false, state := st } := by
  rcases h with h | h
  · simp [run, h]
  · simp [run, h]

theorem run_guard_returns_in_progress_witness :
    run { isLoadingWarmup := false, isLoadingInference := true,
          error := "", isReady := true } =
      { immediate := some { status := "IN_PROGRESS",
                            message := "Service is not ready or is already running" },
        invoked := false,
        state := { isLoadingWarmup := false, isLoadingInference := true,
                   error := "", isReady := true } } :=
  run_guard_returns_in_progress _ (Or.inr rfl)

end UseService

namespace RetryWithWarmup

/-- `maxRetryAttempts` constant of the generate-description component. -/
def maxRetryAttempts : Nat := 3

/-- How the retry chain ends: the wrapped request succeeded, the budget was
exhausted (`Rejected` toast with the given detail plus `Status.ERROR`), or a
warmup rejection escaped `performRetryWithWarmup` as an unhandled rejection
and silently stopped the chain. -/
inductive RWOutcome where
  | success
  | gaveUp (detail : String)
  | halted
deriving DecidableEq, Repr

/-- Coordinator state: the `retryAttempts` and `hasExecutedWarmup` refs plus
instrumentation counting how many times `triggerWarmupMistral` and
`triggerGenerateDescription` have been invoked. -/
structure RWState where
  retryAttempts : Nat
  hasExecutedWarmup : Bool
  warmupInvocations : Nat
  genInvocations : Nat
  outcome : Option RWOutcome
deriving DecidableEq, Repr

/-- The toast detail shown when the retry budget is exhausted. -/
def genericFailureDetail : String :=
  "There was an error generating the description, please try again"

/-- `performRetryWithWarmup`, with `gen i` the outcome of the `(i+1)`-th
`triggerGenerateDescription` invocation (`none` = success, `some msg` =
rejection with error message `msg`) and `warm i` whether the `(i+1)`-th
`triggerWarmupMistral` invocation succeeds.  Mirrors the source:
- `retryAttempts >= maxRetryAttempts` gives up with the generic toast;
- otherwise, if warmup has not succeeded yet, `triggerWarmupMistral` is
  awaited: success sets `hasExecutedWarmup` (its `onSuccess`), while a
  rejection escapes the async function unhandled and halts the chain;
- then the request is retried; success settles the chain (the mutation's
  `onSuccess` resets `retryAttempts`), failure increments `retryAttempts`
  and recurses.
The fuel argument only bounds the recursion depth; with fuel above
`maxRetryAttempts` the `0` branch is unreachable because `retryAttempts`
grows by one per recursive call. -/
def performRetryWithWarmup (gen : Nat → Option String) (warm : Nat → Bool) :
    Nat → RWState → RWState
  | 0, st => st
  | fuel + 1, st =>
    if maxRetryAttempts ≤ st.retryAttempts then
      { st with outcome := some (.gaveUp genericFailureDetail) }
    else if !st.hasExecutedWarmup && !(warm st.warmupInvocations) then
      { st with warmupInvocations := st.warmupInvocations + 1, outcome := some .halted }
    else
      let st1 : RWState :=
        if st.hasExecutedWarmup then st
        else { st with warmupInvocations := st.warmupInvocations + 1,
                       hasExecutedWarmup := true }
      match gen st1.genInvocations with
      | none =>
        { st1 with genInvocations := st1.genInvocations + 1, retryAttempts := 0,
                   outcome := some .success }
      | some _ =>
        performRetryWithWarmup gen warm fuel
          { st1 with genInvocations := st1.genInvocations + 1,
                     retryAttempts := st1.retryAttempts + 1 }

/-- State before the initial `triggerGenerateDescription` call. -/
def initialRWState : RWState :=
  { retryAttempts := 0, hasExecutedWarmup := false, warmupInvocations := 0,
    genInvocations := 0, outcome := none }

/-- One full session for the `mistral` model: the initial request, and on its
failure the `errorGenerateDescription` watcher (guarded by
`retryAttempts < maxRetryAttempts`, trivially true at the first error) sets
`retryAttempts := 1` and enters `performRetryWithWarmup`. -/
def retrySession (gen : Nat → Option String) (warm : Nat → Bool) : RWState :=
  match gen 0 with
  | none => { initialRWState with genInvocations := 1, outcome := some .success }
  | some _ =>
    performRetryWithWarmup gen warm (maxRetryAttempts + 1)
      { initialRWState with genInvocations := 1, retryAttempts := 1 }

/-- C5: against a target whose request fails twice and succeeds on the third
invocation, and whose warmup trigger succeeds, the coordinator settles with
success on exactly the third `triggerGenerateDescription` invocation and
invokes `triggerWarmupMistral` at most once (exactly once, on the first
recovery round). -/
theorem retrySession_two_failures_then_success (gen : Nat → Option String)
    (warm : Nat → Bool) (m0 m1 : String) (h0 : gen 0 = some m0) (h1 : gen 1 = some m1)
    (h2 : gen 2 = none) (hw : warm 0 = true) :
    (retrySession gen warm).outcome = some RWOutcome.success ∧
    (retrySession gen warm).genInvocations = 3 ∧
    (retrySession gen warm).warmupInvocations ≤ 1 := by
  have hsess : retrySession gen warm =
      { retryAttempts := 0, hasExecutedWarmup := true, warmupInvocations := 1,
        genInvocations := 3, outcome := some RWOutcome.success } := by
    simp [retrySession, h0, performRetryWithWarmup, maxRetryAttempts, initialRWState,
      hw, h1, h2]
  rw [hsess]
  exact ⟨rfl, rfl, by decide⟩

theorem retrySession_two_failures_then_success_witness :
    (retrySession (fun i => if i < 2 then some "timeout" else none) (fun _ => true)).outcome =
      some RWOutcome.success ∧
    (retrySession (fun i => if i < 2 then some "timeout" else none)
      (fun _ => true)).warmupInvocations ≤ 1 := by
  have h := retrySession_two_failures_then_success
    (fun i => if i < 2 then some "timeout" else none) (fun _ => true)
    "timeout" "timeout" rfl rfl rfl rfl
  exact ⟨h.1, h.2.2⟩

/-- C8 counterexample: when every attempt fails with the error message
`boom`, the coordinator gives up with the generic toast detail and an
`ERROR` status, and that surfaced detail is not the original failure
message — contradicting "surfaces the original failure ... rather than a
different or generic error". -/
theorem retrySession_gives_up_generic :
    (retrySession (fun _ => some "boom") (fun _ => true)).outcome =
      some (RWOutcome.gaveUp genericFailureDetail) ∧
    genericFailureDetail ≠ "boom" := by
  constructor
  · rfl
  · decide

/-- C8 amended: when every attempt fails (warmup succeeding), the
coordinator stops after exactly `maxRetryAttempts` (3) invocations of the
wrapped request — it does not retry indefinitely — and surfaces the generic
`There was an error generating the description, please try again` toast with
`Status.ERROR`, not the original failure. -/
theorem retrySession_budget_exhausted (gen : Nat → Option String) (warm : Nat → Bool)
    (hg : ∀ i, (gen i).isSome) (hw : warm 0 = true) :
    retrySession gen warm =
      { retryAttempts := 3, hasExecutedWarmup := true, warmupInvocations := 1,
        genInvocations := 3, outcome := some (RWOutcome.gaveUp genericFailureDetail) } := by
  obtain ⟨m0, h0⟩ := Option.isSome_iff_exists.mp (hg 0)
  obtain ⟨m1, h1⟩ := Option.isSome_iff_exists.mp (hg 1)
  obtain ⟨m2, h2⟩ := Option.isSome_iff_exists.mp (hg 2)
  simp [retrySession, h0, performRetryWithWarmup, maxRetryAttempts, initialRWState,
    hw, h1, h2]

theorem retrySession_budget_exhausted_witness :
    retrySession (fun _ => some "boom again") (fun _ => true) =
      { retryAttempts := 3, hasExecutedWarmup := true, warmupInvocations := 1,
        genInvocations := 3, outcome := some (RWOutcome.gaveUp genericFailureDetail) } :=
  retrySession_budget_exhausted (fun _ => some "boom again") (fun _ => true)
    (fun _ => rfl) rfl

end RetryWithWarmup

namespace HealthCheck

/-- An HTTP response as the health-check clients observe it: numeric status,
`statusText`, and the parsed JSON body (kept opaque as a string). -/
structure HttpResponse where
  status : Nat
  statusText : String
  body : String
deriving DecidableEq, Repr

/-- `response.ok` of the Fetch API: the status is in the 200-299 range. -/
def responseOk (r : HttpResponse) : Bool :=
  200 ≤ r.status && r.status ≤ 299

/-- What a health-check call yields: the parsed body, or a thrown `Error`
with the given message. -/
inductive HealthResult where
  | parsed (body : String)
  | thrown (msg : String)
deriving DecidableEq, Repr

/-- `describeImageHealthCheck` from the services API module: return the
parsed body when `response.ok || response.status === 202 ||
response.status === 503`, otherwise throw. -/
def describeImageHealthCheck (model : String) (r : HttpResponse) : HealthResult :=
  if responseOk r || r.status == 202 || r.status == 503 then
    .parsed r.body
  else
    .thrown ("Failed to describe image health check for " ++ model ++ ": " ++ r.statusText)

/-- `generateDescriptionHealthCheck`: identical logic, different message. -/
def generateDescriptionHealthCheck (model : String) (r : HttpResponse) : HealthResult :=
  if responseOk r || r.status == 202 || r.status == 503 then
    .parsed r.body
  else
    .thrown ("Failed to generate description health check for " ++ model ++ ": "
      ++ r.statusText)

/-- Whether a health-check call returned the parsed body. -/
def returnsBody : HealthResult → Bool
  | .parsed _ => true
  | .thrown _ => false

/-- C9 counterexample: on HTTP status 201 — which is neither 200 nor 202 nor
503 — the client returns the parsed body (because `response.ok` covers every
2xx status) instead of throwing, contradicting "returns the parsed response
body exactly when the HTTP status is 200, 202, or 503". -/
theorem healthCheck_201_returns_body :
    returnsBody (describeImageHealthCheck "qwen" ⟨201, "Created", "payload"⟩) = true ∧
    ¬ ((201 : Nat) = 200 ∨ (201 : Nat) = 202 ∨ (201 : Nat) = 503) := by
  decide

/-- C9 amended: both health-check clients return the parsed response body
exactly when the HTTP status is a Fetch-success status (2xx, which includes
200 and 202) or 503, and throw an error for every other status. -/
theorem healthCheck_returns_iff (model : String) (r : HttpResponse) :
    (returnsBody (describeImageHealthCheck model r) = true ↔
      ((200 ≤ r.status ∧ r.status ≤ 299) ∨ r.status = 503)) ∧
    (returnsBody (generateDescriptionHealthCheck model r) = true ↔
      ((200 ≤ r.status ∧ r.status ≤ 299) ∨ r.status = 503)) := by
  have hcov : (responseOk r || r.status == 202 || r.status == 503) = true ↔
      ((200 ≤ r.status ∧ r.status ≤ 299) ∨ r.status = 503) := by
    simp only [responseOk, Bool.or_eq_true, Bool.and_eq_true, decide_eq_true_eq,
      beq_iff_eq]
    omega
  constructor
  · by_cases hc : (responseOk r || r.status == 202 || r.status == 503) = true
    · rw [← hcov]
      simp [describeImageHealthCheck, hc, returnsBody]
    · rw [← hcov]
      simp [describeImageHealthCheck, hc, returnsBody]
  · by_cases hc : (responseOk r || r.status == 202 || r.status == 503) = true
    · rw [← hcov]
      simp [generateDescriptionHealthCheck, hc, returnsBody]
    · rw [← hcov]
      simp [generateDescriptionHealthCheck, hc, returnsBody]

end HealthCheck
